import Mathlib

/-!
Shallow embedding of the authentication and credential-validation core of
the wamp repository: users/auth.py, users/queries.py and the Register and
Login endpoints of server/endpoints.py.

Modelling conventions, stated once:
- Python strings are Lean String values (ASCII scope: Python str.strip,
  str.lower, str.split and the regex character classes are modelled by
  their ASCII behaviour, which is exact on ASCII input).
- Wall-clock time is an integer number of seconds since the epoch, matching
  the integer timestamps that PyJWT compares at decode time; it is threaded
  as an explicit parameter where the source calls datetime.utcnow().
- The module-level signing secret SECRET_KEY is threaded as an explicit
  parameter as well; each function that reads the global receives it.
- Fallible Python code is embedded in Except PyError; a raised exception
  that a function does not catch is an Except.error result.
-/

namespace Wamp

/-! ## Python string primitives (ASCII scope) -/

/-- Drop whitespace from both ends of a character list. -/
def trimChars (l : List Char) : List Char :=
  ((l.dropWhile Char.isWhitespace).reverse.dropWhile Char.isWhitespace).reverse

/-- Python str.strip with no argument: remove leading and trailing
whitespace. -/
def pyStrip (s : String) : String := String.mk (trimChars s.data)

/-- Python str.lower, restricted to ASCII letters. -/
def pyLower (s : String) : String := String.mk (s.data.map Char.toLower)

/-- Worker for pySplitWs: walk the characters with the current token
accumulated in reverse. -/
def pySplitList : List Char → List Char → List String
  | [], acc => if acc = [] then [] else [String.mk acc.reverse]
  | c :: cs, acc =>
    if Char.isWhitespace c then
      if acc = [] then pySplitList cs []
      else String.mk acc.reverse :: pySplitList cs []
    else pySplitList cs (c :: acc)

/-- Python str.split with no argument: split on runs of whitespace,
discarding empty pieces, so leading, trailing and repeated whitespace never
produce empty tokens. -/
def pySplitWs (s : String) : List String := pySplitList s.data []

/-- Regex class [A-Z]. -/
def isUpperAZ (c : Char) : Bool := 'A' ≤ c && c ≤ 'Z'

/-- Regex class [a-z]. -/
def isLowerAZ (c : Char) : Bool := 'a' ≤ c && c ≤ 'z'

/-- Regex class \d on ASCII input: [0-9]. -/
def isDigit09 (c : Char) : Bool := '0' ≤ c && c ≤ '9'

/-- Regex class [a-zA-Z]. -/
def isAlphaAZ (c : Char) : Bool := isUpperAZ c || isLowerAZ c

/-! ## users/queries.py: validators -/

/-- MIN_PASSWORD_LENGTH from users/queries.py. -/
def MIN_PASSWORD_LENGTH : Nat := 8

/-- MAX_PASSWORD_LENGTH from users/queries.py. -/
def MAX_PASSWORD_LENGTH : Nat := 128

/-- Local-part character class of the email regex in validate_email:
[a-zA-Z0-9._%+-]. -/
def isLocalChar (c : Char) : Bool :=
  isAlphaAZ c || isDigit09 c || c = '.' || c = '_' || c = '%' || c = '+' || c = '-'

/-- Domain character class of the email regex: [a-zA-Z0-9.-]. -/
def isDomainChar (c : Char) : Bool :=
  isAlphaAZ c || isDigit09 c || c = '.' || c = '-'

/-- Username character class of the regex in validate_username:
[a-zA-Z0-9_]. -/
def isUsernameChar (c : Char) : Bool :=
  isAlphaAZ c || isDigit09 c || c = '_'

/-- Split a character list at the first occurrence of c, returning the
pieces before and after it, or none when c does not occur. -/
def splitAtFirst (c : Char) : List Char → Option (List Char × List Char)
  | [] => none
  | x :: xs =>
    if x = c then some ([], xs)
    else
      match splitAtFirst c xs with
      | none => none
      | some (a, b) => some (x :: a, b)

/-- The anchored email regex of validate_email,
r-string caret [a-zA-Z0-9._%+-]+ at [a-zA-Z0-9.-]+ dot [a-zA-Z]\x7b2,\x7d dollar,
as a decision procedure. The regex matches exactly the strings of the form
local at-sign domain dot tld with local nonempty over the local class,
domain nonempty over the domain class and tld at least two letters; the
local and domain classes exclude the at-sign and the tld class excludes the
dot, so matching is equivalent to splitting at the unique at-sign and at
the last dot after it. -/
def emailPatternMatch (s : String) : Bool :=
  match splitAtFirst '@' s.data with
  | none => false
  | some (localPart, rest) =>
    localPart ≠ [] && localPart.all isLocalChar &&
    (match splitAtFirst '.' rest.reverse with
     | none => false
     | some (tldRev, domRev) =>
       let tld := tldRev.reverse
       let dom := domRev.reverse
       dom ≠ [] && dom.all isDomainChar && decide (tld.length ≥ 2) && tld.all isAlphaAZ)

/-- validate_email from users/queries.py. The falsy check `not email`
is emptiness on a string argument; length and pattern checks run on the
stripped string. -/
def validate_email (email : String) : Bool × String :=
  if email = "" then (false, "Email is required")
  else if (pyStrip email).length < 3 || (pyStrip email).length > 254 then
    (false, "Email must be between 3 and 254 characters")
  else if ¬ emailPatternMatch (pyStrip email) then
    (false, "Invalid email format")
  else (true, "")

/-- validate_username from users/queries.py. The regex
caret [a-zA-Z0-9_]+ dollar requires a nonempty string over the username
class; length and character checks run on the stripped string. -/
def validate_username (username : String) : Bool × String :=
  if username = "" then (false, "Username is required")
  else if (pyStrip username).length < 3 || (pyStrip username).length > 30 then
    (false, "Username must be between 3 and 30 characters")
  else if ¬ ((pyStrip username).data ≠ [] && (pyStrip username).data.all isUsernameChar) then
    (false, "Username can only contain letters, numbers, and underscores")
  else (true, "")

/-- validate_password from users/queries.py. No strip: every check runs on
the raw string. -/
def validate_password (password : String) : Bool × String :=
  if password = "" then (false, "Password is required")
  else if password.length < MIN_PASSWORD_LENGTH then
    (false, "Password must be at least 8 characters")
  else if password.length > MAX_PASSWORD_LENGTH then
    (false, "Password must be at most 128 characters")
  else if ¬ password.data.any isUpperAZ then
    (false, "Password must contain at least one uppercase letter")
  else if ¬ password.data.any isLowerAZ then
    (false, "Password must contain at least one lowercase letter")
  else if ¬ password.data.any isDigit09 then
    (false, "Password must contain at least one number")
  else (true, "")

/-! ## users/auth.py: token service (PyJWT model)

generate_token encodes the payload dict with jwt.encode(payload, SECRET_KEY,
HS256) and validate_token decodes with jwt.decode(token, SECRET_KEY,
[HS256]) inside try/except jwt.InvalidTokenError. The compact token string
is modelled abstractly: a well-formed signed token is its claim set
together with the secret whose HMAC signed it (the model treats HMAC as
collision-free, which is the intended security assumption), and the
malformed constructors stand for strings that fail structural parsing.
PyJWT decode behaviour embedded here: signature mismatch and structural
failures raise subclasses of InvalidTokenError; decode then validates the
registered claims that are PRESENT, in the source order of
_validate_claims with leeway 0 and no audience or issuer argument: an iat
claim that does not int-coerce raises InvalidIssuedAtError; an nbf claim
must int-coerce (else DecodeError) and not lie in the future (else
ImmatureSignatureError); an exp claim must int-coerce (else DecodeError)
and the token is rejected when exp is strictly below the current integer
timestamp (ExpiredSignatureError); a truthy aud claim with no expected
audience raises InvalidAudienceError; with issuer None a present iss claim
is not checked. PyJWT requires no particular claim to be present (default
options have an empty require list), so a signed token without user_id,
email or exp decodes to its claim dict unchecked for those fields.
PyJWT versions from 2.10 additionally type-check present sub and jti
claims, and versions from 2.6 additionally reject a future iat; neither
check is embedded, and no theorem below asserts acceptance of a token
carrying any of those claims nor rejection behind those checks. -/

/-- A JWT claim value as used by this code base: strings and integer
timestamps. In the timestamp positions that decode int-coerces (exp, iat,
nbf), an int value models any payload value int() accepts (including a
numeric string) and a str value models a payload value int() rejects. -/
inductive ClaimVal
  | str (s : String)
  | int (n : Int)
deriving DecidableEq

/-- A decoded claim set: a Python dict with string keys in insertion
order. -/
abbrev Claims := List (String × ClaimVal)

/-- Python dict lookup d[k] as an Option: keys are unique, first match
wins. -/
def assocGet {α : Type} : List (String × α) → String → Option α
  | [], _ => none
  | (k, v) :: rest, key => if k = key then some v else assocGet rest key

/-- Abstract model of a compact JWT token string. signed claims secret is a
structurally well-formed three-segment token whose signature was computed
with secret; malformedSegments is any string without exactly three
dot-separated segments; malformedEncoding is a three-segment string whose
header or payload segment is not valid base64url-encoded JSON. -/
inductive TokenRepr
  | signed (claims : Claims) (secret : String)
  | malformedSegments (raw : String)
  | malformedEncoding (raw : String)
deriving DecidableEq

/-- The PyJWT exceptions validate_token can see; every one is a subclass of
jwt.InvalidTokenError, which is exactly the class validate_token
catches. -/
inductive JWTError
  | decodeError
  | invalidSignatureError
  | expiredSignatureError
  | invalidIssuedAtError
  | immatureSignatureError
  | invalidAudienceError
deriving DecidableEq

/-- Python truthiness of a claim value, as tested by _validate_aud. -/
def truthy : ClaimVal → Bool
  | .str s => s ≠ ""
  | .int n => n ≠ 0

/-- _validate_iat: an iat claim present must int-coerce, else
InvalidIssuedAtError. -/
def validateIat (cs : Claims) : Except JWTError Unit :=
  match assocGet cs "iat" with
  | some (.str _) => .error .invalidIssuedAtError
  | _ => .ok ()

/-- _validate_nbf with leeway 0: an nbf claim present must int-coerce,
else DecodeError, and must not lie strictly in the future, else
ImmatureSignatureError. -/
def validateNbf (cs : Claims) (now : Int) : Except JWTError Unit :=
  match assocGet cs "nbf" with
  | some (.str _) => .error .decodeError
  | some (.int nbf) =>
    if nbf > now then .error .immatureSignatureError else .ok ()
  | none => .ok ()

/-- _validate_exp with leeway 0: an exp claim present must int-coerce,
else DecodeError, and must not lie strictly in the past, else
ExpiredSignatureError. -/
def validateExp (cs : Claims) (now : Int) : Except JWTError Unit :=
  match assocGet cs "exp" with
  | some (.str _) => .error .decodeError
  | some (.int e) =>
    if e < now then .error .expiredSignatureError else .ok ()
  | none => .ok ()

/-- _validate_aud with no expected audience: a truthy aud claim present
raises InvalidAudienceError; an absent or falsy one passes. -/
def validateAud (cs : Claims) : Except JWTError Unit :=
  match assocGet cs "aud" with
  | some v => if truthy v then .error .invalidAudienceError else .ok ()
  | none => .ok ()

/-- jwt.decode(token, key, algorithms=[HS256]) at integer time now:
structural failure raises DecodeError; a signature computed with a
different key raises InvalidSignatureError; then the present-claim
validations run in the source order iat, nbf, exp, aud (a present iss is
unchecked with issuer None); if all pass, the claim dict is returned, with
no required-claim check. -/
def jwtDecode (t : TokenRepr) (key : String) (now : Int) : Except JWTError Claims :=
  match t with
  | .malformedSegments _ => .error .decodeError
  | .malformedEncoding _ => .error .decodeError
  | .signed cs secret =>
    if secret ≠ key then .error .invalidSignatureError
    else
      match validateIat cs with
      | .error e => .error e
      | .ok _ =>
        match validateNbf cs now with
        | .error e => .error e
        | .ok _ =>
          match validateExp cs now with
          | .error e => .error e
          | .ok _ =>
            match validateAud cs with
            | .error e => .error e
            | .ok _ => .ok cs

/-- generate_token from users/auth.py at issuance time now with the process
secret. The source default for expires_in is 3600 seconds. The exp claim is
utcnow() + expires_in and iat is utcnow(), both serialized as integer
timestamps. -/
def generate_token (user_id email : String) (expires_in : Int) (now : Int)
    (secret : String) : TokenRepr :=
  .signed [("user_id", .str user_id), ("email", .str email),
           ("exp", .int (now + expires_in)), ("iat", .int now)] secret

/-- validate_token from users/auth.py: jwt.decode under
try/except jwt.InvalidTokenError returning None; every JWTError is such a
subclass, so every decode failure maps to none. -/
def validate_token (t : TokenRepr) (now : Int) (secret : String) : Option Claims :=
  match jwtDecode t secret now with
  | .ok cs => some cs
  | .error _ => none

/-- verify_token_header from users/auth.py. The header is a real string;
env interprets the extracted token substring as the token it denotes in the
abstract token model. The source splits with str.split() on whitespace
runs, rejects unless exactly two parts remain with the first lowercasing to
bearer, and delegates the second part to validate_token; the surrounding
try/except IndexError/ValueError can never fire after the length check. -/
def verify_token_header (env : String → TokenRepr) (header : String)
    (now : Int) (secret : String) : Option Claims :=
  if header = "" then none
  else
    match pySplitWs header with
    | [scheme, tok] =>
      if pyLower scheme ≠ "bearer" then none
      else validate_token (env tok) now secret
    | _ => none

/-! ## bcrypt model and users/auth.py: hashing and authentication -/

/-- Abstract model of a byte-string occurring in a password-hash position.
wellFormed plaintext salt is the self-describing bcrypt hash string
produced by hashpw for that plaintext and salt (the model treats the
digest as collision-free, the intended security assumption); malformed raw
is any byte-string that does not parse as a bcrypt hash. The str-to-bytes
encode in the source is content-preserving and is the identity here. -/
inductive BcryptHash
  | wellFormed (plaintext : String) (salt : Nat)
  | malformed (raw : String)
deriving DecidableEq

/-- The Python exceptions the embedded fragments can raise. -/
inductive PyError
  | valueError (msg : String)
  | keyError (key : String)
deriving DecidableEq

/-- bcrypt.hashpw(password, salt): deterministic given the salt, and the
result embeds the salt so verification is self-describing. -/
def bcrypt_hashpw (password : String) (salt : Nat) : BcryptHash :=
  .wellFormed password salt

/-- bcrypt.checkpw(password, hashed): on a well-formed hash it recomputes
with the embedded salt and compares digests in constant time, succeeding
exactly for the original plaintext; on a hash that does not parse as a
bcrypt hash the underlying hashpw call raises ValueError with message
Invalid salt, and checkpw does not catch it. -/
def bcrypt_checkpw (password : String) (hashed : BcryptHash) : Except PyError Bool :=
  match hashed with
  | .wellFormed p _ => .ok (password = p)
  | .malformed _ => .error (.valueError "Invalid salt")

/-- hash_password from users/auth.py: bcrypt.hashpw with a gensalt() value,
threaded here as the explicit salt parameter. -/
def hash_password (password : String) (salt : Nat) : BcryptHash :=
  bcrypt_hashpw password salt

/-- A value stored in a user document: ordinary strings (ids, emails,
usernames), password-hash byte-strings, and datetime fields. -/
inductive PyValue
  | str (s : String)
  | hashVal (h : BcryptHash)
  | timeVal (t : Int)
deriving DecidableEq

/-- A user document: a Python dict with string keys in insertion order. -/
abbrev PyDict := List (String × PyValue)

/-- Python str() on a dict value in the modelled flows: the _id field read
by authenticate_user is already a string after convert_mongo_id. -/
def pyStr : PyValue → String
  | .str s => s
  | .hashVal _ => ""
  | .timeVal t => toString t

/-- Interpret a dict value in the password slot as the bcrypt hash
byte-string it holds; an arbitrary string value in that slot is a
byte-string that hashpw rejects, which malformed models. -/
def asBcrypt : PyValue → BcryptHash
  | .hashVal h => h
  | .str s => .malformed s
  | .timeVal t => .malformed (toString t)

/-- The email key normalization email.lower().strip() applied by
get_user_by_email, user_exists and create_user. -/
def normalizeEmail (email : String) : String := pyStrip (pyLower email)

/-- get_user_by_email from users/queries.py over an injected store keyed by
normalized email; documents come back with _id already converted to a
string. -/
def get_user_by_email (db : String → Option PyDict) (email : String) :
    Option PyDict :=
  db (normalizeEmail email)

/-- authenticate_user from users/auth.py. Step 1 looks the user up by
email and returns None on a falsy result (absent, or an empty dict);
step 2 runs bcrypt.checkpw against the stored hash with no exception
handling, so a ValueError from a malformed stored hash propagates; step 3
issues a token for str(user[_id]) and the raw email argument; step 4
returns the token with the dict comprehension dropping the password key. -/
def authenticate_user (db : String → Option PyDict) (email password : String)
    (now : Int) (secret : String) :
    Except PyError (Option (TokenRepr × PyDict)) :=
  match get_user_by_email db email with
  | none => .ok none
  | some user =>
    if user = [] then .ok none
    else
      match assocGet user "password" with
      | none => .error (.keyError "password")
      | some pv =>
        match bcrypt_checkpw password (asBcrypt pv) with
        | .error e => .error e
        | .ok ok =>
          if ok then
            match assocGet user "_id" with
            | none => .error (.keyError "_id")
            | some idv =>
              .ok (some (generate_token (pyStr idv) email 3600 now secret,
                         user.filter (fun kv => kv.1 ≠ "password")))
          else .ok none

/-! ## users/queries.py create_user and server/endpoints.py Register -/

/-- The store state that user_exists consults: the normalized emails and
stripped usernames already taken. -/
structure DbState where
  emails : List String
  usernames : List String
deriving DecidableEq

/-- user_exists(email=e) from users/queries.py: falsy emails skip the
check, otherwise the store is queried by normalized email. -/
def emailExists (db : DbState) (email : String) : Bool :=
  email ≠ "" && db.emails.contains (normalizeEmail email)

/-- user_exists(username=u) from users/queries.py: falsy usernames skip
the check, otherwise the store is queried by stripped username. -/
def usernameExists (db : DbState) (username : String) : Bool :=
  username ≠ "" && db.usernames.contains (pyStrip username)

/-- create_user from users/queries.py at creation time t with the id the
store assigns to the inserted document. A duplicate email raises ValueError
first; then a duplicate username raises ValueError; otherwise the document
is built in source insertion order with _id appended after the insert. -/
def create_user (db : DbState) (newId : String) (t : Int)
    (email username : String) (password_hash : BcryptHash) :
    Except PyError PyDict :=
  if emailExists db email then
    .error (.valueError ("User with email " ++ email ++ " already exists"))
  else if usernameExists db username then
    .error (.valueError ("Username " ++ username ++ " already taken"))
  else
    .ok [("email", .str (normalizeEmail email)),
         ("username", .str (pyStrip username)),
         ("password", .hashVal password_hash),
         ("created_at", .timeVal t),
         ("updated_at", .timeVal t),
         ("_id", .str newId)]

/-- The JSON responses Register.post can produce: err is the
error-and-status body returned both by the inline validation failures and
by the ValueError and generic exception handlers; created is the 201
success body with its message and user_id fields. -/
inductive RegisterResponse
  | err (msg : String) (status : Nat)
  | created (message : String) (user_id : String) (status : Nat)
deriving DecidableEq

/-- data.get(field) in Register.post yields None when the field is absent;
a None argument fails the isinstance check inside validate_email, giving
the required message. -/
def validate_email_field : Option String → Bool × String
  | none => (false, "Email is required")
  | some s => validate_email s

/-- data.get for the username field, as for the email field. -/
def validate_username_field : Option String → Bool × String
  | none => (false, "Username is required")
  | some s => validate_username s

/-- data.get for the password field, as for the email field. -/
def validate_password_field : Option String → Bool × String
  | none => (false, "Password is required")
  | some s => validate_password s

/-- Register.post from server/endpoints.py over request fields email,
username, password, the store state, the gensalt() value and the id and
time of the insert. The three validators run in source order, each failure
returning its message with 400 before the next validator runs; when all
pass (so each field is a nonempty string) the password is hashed and
create_user is called, whose ValueError is caught by the except ValueError
handler and returned as an error body with 400; on success the 201 body
carries user[_id]. -/
def register_post (db : DbState) (salt : Nat) (newId : String) (t : Int)
    (email username password : Option String) : RegisterResponse :=
  match validate_email_field email with
  | (false, msg) => .err msg 400
  | (true, _) =>
    match validate_username_field username with
    | (false, msg) => .err msg 400
    | (true, _) =>
      match validate_password_field password with
      | (false, msg) => .err msg 400
      | (true, _) =>
        let password_hash := hash_password (password.getD "") salt
        match create_user db newId t (email.getD "") (username.getD "") password_hash with
        | .error (.valueError msg) => .err msg 400
        | .error (.keyError k) => .err k 500
        | .ok user =>
          .created "User created successfully"
            (pyStr ((assocGet user "_id").getD (.str ""))) 201

/-! ## Theorems -/

/-- C7: validate_password accepts exactly the strings of length in [8,128]
containing an uppercase letter, a lowercase letter and a digit, and on
rejection reports the first failing rule in the order required,
too-short, too-long, uppercase, lowercase, digit; the embedded function is
total on strings. -/
theorem validate_password_spec (p : String) :
    (validate_password p = (true, "") ↔
      (MIN_PASSWORD_LENGTH ≤ p.length ∧ p.length ≤ MAX_PASSWORD_LENGTH ∧
       p.data.any isUpperAZ = true ∧ p.data.any isLowerAZ = true ∧
       p.data.any isDigit09 = true)) ∧
    (p = "" → validate_password p = (false, "Password is required")) ∧
    (p ≠ "" → p.length < MIN_PASSWORD_LENGTH →
      validate_password p = (false, "Password must be at least 8 characters")) ∧
    (p.length > MAX_PASSWORD_LENGTH →
      validate_password p = (false, "Password must be at most 128 characters")) ∧
    (MIN_PASSWORD_LENGTH ≤ p.length → p.length ≤ MAX_PASSWORD_LENGTH →
      p.data.any isUpperAZ = false →
      validate_password p = (false, "Password must contain at least one uppercase letter")) ∧
    (MIN_PASSWORD_LENGTH ≤ p.length → p.length ≤ MAX_PASSWORD_LENGTH →
      p.data.any isUpperAZ = true → p.data.any isLowerAZ = false →
      validate_password p = (false, "Password must contain at least one lowercase letter")) ∧
    (MIN_PASSWORD_LENGTH ≤ p.length → p.length ≤ MAX_PASSWORD_LENGTH →
      p.data.any isUpperAZ = true → p.data.any isLowerAZ = true →
      p.data.any isDigit09 = false →
      validate_password p = (false, "Password must contain at least one number")) := by
  have hminmax : MIN_PASSWORD_LENGTH ≤ MAX_PASSWORD_LENGTH := by decide
  refine ⟨?_, ?_, ?_, ?_, ?_, ?_, ?_⟩
  · constructor
    · intro h
      unfold validate_password at h
      by_cases h1 : p = ""
      · rw [if_pos h1] at h
        exact absurd (congrArg Prod.fst h) (by decide)
      rw [if_neg h1] at h
      by_cases h2 : p.length < MIN_PASSWORD_LENGTH
      · rw [if_pos h2] at h
        exact absurd (congrArg Prod.fst h) (by decide)
      rw [if_neg h2] at h
      by_cases h3 : p.length > MAX_PASSWORD_LENGTH
      · rw [if_pos h3] at h
        exact absurd (congrArg Prod.fst h) (by decide)
      rw [if_neg h3] at h
      by_cases h4 : p.data.any isUpperAZ = true
      · rw [if_neg (not_not_intro h4)] at h
        by_cases h5 : p.data.any isLowerAZ = true
        · rw [if_neg (not_not_intro h5)] at h
          by_cases h6 : p.data.any isDigit09 = true
          · exact ⟨Nat.le_of_not_lt h2, Nat.le_of_not_lt h3, h4, h5, h6⟩
          · rw [if_pos h6] at h
            exact absurd (congrArg Prod.fst h) (by decide)
        · rw [if_pos h5] at h
          exact absurd (congrArg Prod.fst h) (by decide)
      · rw [if_pos h4] at h
        exact absurd (congrArg Prod.fst h) (by decide)
    · rintro ⟨hmin, hmax, hu, hl, hd⟩
      have hne : p ≠ "" := by
        intro hemp
        subst hemp
        exact absurd hmin (by decide)
      unfold validate_password
      rw [if_neg hne, if_neg (Nat.not_lt.mpr hmin), if_neg (Nat.not_lt.mpr hmax),
        if_neg (not_not_intro hu), if_neg (not_not_intro hl), if_neg (not_not_intro hd)]
  · intro h
    simp [validate_password, h]
  · intro hne hlt
    unfold validate_password
    rw [if_neg hne, if_pos hlt]
  · intro hgt
    have hne : p ≠ "" := by
      intro hemp
      subst hemp
      exact absurd hgt (by decide)
    unfold validate_password
    rw [if_neg hne, if_neg (Nat.not_lt.mpr (le_trans hminmax (le_of_lt hgt))), if_pos hgt]
  · intro hmin hmax hu
    have hne : p ≠ "" := by
      intro hemp
      subst hemp
      exact absurd hmin (by decide)
    unfold validate_password
    rw [if_neg hne, if_neg (Nat.not_lt.mpr hmin), if_neg (Nat.not_lt.mpr hmax),
      if_pos (by simp [hu])]
  · intro hmin hmax hu hl
    have hne : p ≠ "" := by
      intro hemp
      subst hemp
      exact absurd hmin (by decide)
    unfold validate_password
    rw [if_neg hne, if_neg (Nat.not_lt.mpr hmin), if_neg (Nat.not_lt.mpr hmax),
      if_neg (not_not_intro hu), if_pos (by simp [hl])]
  · intro hmin hmax hu hl hd
    have hne : p ≠ "" := by
      intro hemp
      subst hemp
      exact absurd hmin (by decide)
    unfold validate_password
    rw [if_neg hne, if_neg (Nat.not_lt.mpr hmin), if_neg (Nat.not_lt.mpr hmax),
      if_neg (not_not_intro hu), if_neg (not_not_intro hl), if_pos (by simp [hd])]

/-- Witness for C7 at a concrete password. -/
theorem validate_password_spec_witness :
    validate_password "ValidPass123" = (true, "") :=
  (validate_password_spec "ValidPass123").1.mpr (by decide)

/-- C10: validate_email and validate_username run their length and
character checks on the stripped input, so any two nonempty strings with
the same stripped form validate identically; validate_password checks the
raw string, so surrounding whitespace counts toward the [8,128] length
bounds, and a password differing only in surrounding whitespace is a
different credential under bcrypt verification. -/
theorem validators_trim_but_password_does_not :
    (∀ s t : String, s ≠ "" → t ≠ "" → pyStrip s = pyStrip t →
      validate_email s = validate_email t) ∧
    (∀ s t : String, s ≠ "" → t ≠ "" → pyStrip s = pyStrip t →
      validate_username s = validate_username t) ∧
    validate_password "   Aa1aa" = (true, "") ∧
    pyStrip "   Aa1aa" = "Aa1aa" ∧
    validate_password "Aa1aa" = (false, "Password must be at least 8 characters") ∧
    bcrypt_checkpw "Aa1aa" (bcrypt_hashpw "   Aa1aa" 0) = .ok false := by
  refine ⟨?_, ?_, by decide, by decide, by decide, by rfl⟩
  · intro s t hs ht h
    unfold validate_email
    rw [if_neg hs, if_neg ht, h]
  · intro s t hs ht h
    unfold validate_username
    rw [if_neg hs, if_neg ht, h]

/-- Witness for C10 at concrete strings: a padded and an unpadded email
validate identically. -/
theorem validators_trim_but_password_does_not_witness :
    validate_email "  user@example.com  " = validate_email "user@example.com" :=
  validators_trim_but_password_does_not.1 "  user@example.com  " "user@example.com"
    (by decide) (by decide) (by decide)

/-- C1: a token issued by generate_token and validated before its expiry
time under the same process secret yields a payload whose user_id and email
claims equal the issuance inputs. -/
theorem validate_generate_roundtrip (uid email : String) (ttl t0 now : Int)
    (secret : String) (h : now < t0 + ttl) :
    ∃ cs, validate_token (generate_token uid email ttl t0 secret) now secret = some cs ∧
      assocGet cs "user_id" = some (.str uid) ∧
      assocGet cs "email" = some (.str email) := by
  have hnotlt : ¬ (t0 + ttl < now) := not_lt.mpr (le_of_lt h)
  refine ⟨[("user_id", .str uid), ("email", .str email),
           ("exp", .int (t0 + ttl)), ("iat", .int t0)], ?_, ?_, ?_⟩
  · unfold validate_token jwtDecode generate_token validateIat validateNbf validateExp validateAud
    simp [assocGet, hnotlt]
  · rfl
  · rfl

/-- Witness for C1 at concrete inputs. -/
theorem validate_generate_roundtrip_witness :
    ∃ cs, validate_token
        (generate_token "user123" "user@example.com" 3600 0 "secret") 10 "secret"
        = some cs ∧
      assocGet cs "user_id" = some (.str "user123") ∧
      assocGet cs "email" = some (.str "user@example.com") :=
  validate_generate_roundtrip "user123" "user@example.com" 3600 0 10 "secret" (by decide)

/-- C9: a token issued with ttl 0 at time t0 and validated at any strictly
later integer time is rejected, because its exp claim equals t0 and PyJWT
rejects exp strictly below the current time. -/
theorem ttl_zero_token_expired (uid email : String) (t0 now : Int)
    (secret : String) (h : t0 < now) :
    validate_token (generate_token uid email 0 t0 secret) now secret = none := by
  unfold validate_token jwtDecode generate_token validateIat validateNbf validateExp validateAud
  simp [assocGet, h]

/-- Witness for C9 at concrete inputs. -/
theorem ttl_zero_token_expired_witness :
    validate_token (generate_token "user123" "user@example.com" 0 5 "secret") 6 "secret"
      = none :=
  ttl_zero_token_expired "user123" "user@example.com" 5 6 "secret" (by decide)

/-- Counterexample for C2: a structurally well-formed token signed with the
process secret whose payload is missing every one of the user_id, email and
exp claims is not rejected; validate_token returns its (empty) payload, not
none, because PyJWT enforces no required claims by default. -/
theorem validate_token_missing_claims_cex :
    assocGet ([] : Claims) "user_id" = none ∧
    assocGet ([] : Claims) "email" = none ∧
    assocGet ([] : Claims) "exp" = none ∧
    validate_token (TokenRepr.signed [] "secret") 0 "secret" = some [] := by
  exact ⟨rfl, rfl, rfl, rfl⟩

/-- On a well-signed token, validate_token walks the present-claim
validations in order and collapses any failure to none. -/
lemma validate_token_signed_eq (cs : Claims) (key : String) (now : Int) :
    validate_token (.signed cs key) now key =
      match validateIat cs with
      | .error _ => none
      | .ok _ =>
        match validateNbf cs now with
        | .error _ => none
        | .ok _ =>
          match validateExp cs now with
          | .error _ => none
          | .ok _ =>
            match validateAud cs with
            | .error _ => none
            | .ok _ => some cs := by
  unfold validate_token jwtDecode
  dsimp only
  rw [if_neg (not_not_intro rfl)]
  cases validateIat cs with
  | error e => rfl
  | ok u =>
    cases validateNbf cs now with
    | error e => rfl
    | ok u2 =>
      cases validateExp cs now with
      | error e => rfl
      | ok u3 =>
        cases validateAud cs with
        | error e => rfl
        | ok u4 => rfl

/-- C2 as amended: validate_token returns an optional payload rather than
raising; wrong segment count, invalid segment encoding, a signature under
a different secret, a non-int-coercible iat, a future nbf, an expired exp
and a truthy aud with no expected audience all yield none; but a
well-signed token carrying none of the registered claims that decode
validates is accepted and returns its payload unchanged even though the
subject id, email and expiry claims are all missing. -/
theorem validate_token_total_amended (t : TokenRepr) (now : Int) (key : String) :
    (∀ raw, t = .malformedSegments raw → validate_token t now key = none) ∧
    (∀ raw, t = .malformedEncoding raw → validate_token t now key = none) ∧
    (∀ cs secret, t = .signed cs secret → secret ≠ key →
      validate_token t now key = none) ∧
    (∀ cs s, t = .signed cs key → assocGet cs "iat" = some (.str s) →
      validate_token t now key = none) ∧
    (∀ cs nbf, t = .signed cs key → assocGet cs "nbf" = some (.int nbf) →
      now < nbf → validate_token t now key = none) ∧
    (∀ cs e, t = .signed cs key → assocGet cs "exp" = some (.int e) →
      e < now → validate_token t now key = none) ∧
    (∀ cs v, t = .signed cs key → assocGet cs "aud" = some v → truthy v = true →
      validate_token t now key = none) ∧
    (∀ cs, t = .signed cs key →
      assocGet cs "exp" = none → assocGet cs "iat" = none →
      assocGet cs "nbf" = none → assocGet cs "aud" = none →
      assocGet cs "sub" = none → assocGet cs "jti" = none →
      validate_token t now key = some cs) := by
  refine ⟨?_, ?_, ?_, ?_, ?_, ?_, ?_, ?_⟩
  · intro raw h
    subst h
    rfl
  · intro raw h
    subst h
    rfl
  · intro cs secret h hne
    subst h
    simp [validate_token, jwtDecode, hne]
  · intro cs s h hiat
    subst h
    have hI : validateIat cs = .error .invalidIssuedAtError := by
      unfold validateIat
      rw [hiat]
    rw [validate_token_signed_eq, hI]
  · intro cs nbf h hnbf hlt
    subst h
    have hN : validateNbf cs now = .error .immatureSignatureError := by
      unfold validateNbf
      rw [hnbf]
      dsimp only
      rw [if_pos hlt]
    rw [validate_token_signed_eq]
    cases validateIat cs with
    | error e => rfl
    | ok u => rw [hN]
  · intro cs e h hexp hlt
    subst h
    have hE : validateExp cs now = .error .expiredSignatureError := by
      unfold validateExp
      rw [hexp]
      dsimp only
      rw [if_pos hlt]
    rw [validate_token_signed_eq]
    cases validateIat cs with
    | error e2 => rfl
    | ok u =>
      cases validateNbf cs now with
      | error e2 => rfl
      | ok u2 => rw [hE]
  · intro cs v h haud htr
    subst h
    have hA : validateAud cs = .error .invalidAudienceError := by
      unfold validateAud
      rw [haud]
      dsimp only
      rw [if_pos htr]
    rw [validate_token_signed_eq]
    cases validateIat cs with
    | error e2 => rfl
    | ok u =>
      cases validateNbf cs now with
      | error e2 => rfl
      | ok u2 =>
        cases validateExp cs now with
        | error e2 => rfl
        | ok u3 => rw [hA]
  · intro cs h hexp hiat hnbf haud hsub hjti
    subst h
    have hI : validateIat cs = .ok () := by
      unfold validateIat
      rw [hiat]
    have hN : validateNbf cs now = .ok () := by
      unfold validateNbf
      rw [hnbf]
    have hE : validateExp cs now = .ok () := by
      unfold validateExp
      rw [hexp]
    have hA : validateAud cs = .ok () := by
      unfold validateAud
      rw [haud]
    rw [validate_token_signed_eq, hI, hN, hE, hA]

/-- Witness for the amended C2 at a concrete malformed token. -/
theorem validate_token_total_amended_witness :
    validate_token (TokenRepr.malformedSegments "nodots") 0 "secret" = none :=
  (validate_token_total_amended (TokenRepr.malformedSegments "nodots") 0 "secret").1
    "nodots" rfl

/-- A stored account whose password field holds a byte-string that does
not parse as a bcrypt hash. -/
def malformedHashUser : PyDict :=
  [("_id", .str "507f1f77bcf86cd799439011"),
   ("email", .str "bad@example.com"),
   ("password", .hashVal (.malformed "plaintext-not-a-bcrypt-hash"))]

/-- A store holding exactly malformedHashUser. -/
def malformedHashDb : String → Option PyDict :=
  fun e => if e = "bad@example.com" then some malformedHashUser else none

/-- Counterexample for C3: authenticating against an account whose stored
password hash is malformed does not return none; the ValueError that
bcrypt.checkpw raises on an unparsable hash propagates out of
authenticate_user uncaught. -/
theorem authenticate_user_malformed_hash_cex :
    authenticate_user malformedHashDb "bad@example.com" "AnyPass123" 0 "secret"
      = .error (.valueError "Invalid salt") := by
  rfl

/-- C3 as amended: on an account whose stored password hash is malformed,
bcrypt verification raises ValueError and authenticate_user propagates the
exception instead of returning none; verification returns false without
raising only for a well-formed stored hash of a different password. -/
theorem authenticate_user_malformed_hash_amended (db : String → Option PyDict)
    (email password : String) (now : Int) (secret : String)
    (user : PyDict) (raw : String)
    (hu : db (normalizeEmail email) = some user)
    (hne : user ≠ [])
    (hp : assocGet user "password" = some (.hashVal (.malformed raw))) :
    authenticate_user db email password now secret
      = .error (.valueError "Invalid salt") ∧
    ∀ pw salt, password ≠ pw →
      bcrypt_checkpw password (BcryptHash.wellFormed pw salt) = .ok false := by
  constructor
  · unfold authenticate_user get_user_by_email
    rw [hu]
    simp [hne, hp, asBcrypt, bcrypt_checkpw]
  · intro pw salt hneq
    simp [bcrypt_checkpw, hneq]

/-- Witness for the amended C3 at the concrete malformed-hash account. -/
theorem authenticate_user_malformed_hash_amended_witness :
    authenticate_user malformedHashDb "bad@example.com" "AnyPass123" 0 "secret"
      = .error (.valueError "Invalid salt") :=
  (authenticate_user_malformed_hash_amended malformedHashDb "bad@example.com"
    "AnyPass123" 0 "secret" malformedHashUser "plaintext-not-a-bcrypt-hash"
    rfl (by decide) rfl).1

/-- C4: authentication failure is uniform. With no record under the
case-normalized trimmed email the result is ok none; with a record whose
well-formed stored hash does not verify the supplied password the result
is also ok none; the two results are the identical value. -/
theorem authenticate_failures_indistinguishable
    (db db2 : String → Option PyDict) (email email2 password password2 : String)
    (now now2 : Int) (secret secret2 : String)
    (user : PyDict) (pw : String) (salt : Nat)
    (hA : db (normalizeEmail email) = none)
    (hB : db2 (normalizeEmail email2) = some user)
    (hBp : assocGet user "password" = some (.hashVal (.wellFormed pw salt)))
    (hBw : password2 ≠ pw) :
    authenticate_user db email password now secret = .ok none ∧
    authenticate_user db2 email2 password2 now2 secret2 = .ok none ∧
    authenticate_user db email password now secret
      = authenticate_user db2 email2 password2 now2 secret2 := by
  have hne : user ≠ [] := by
    intro h
    subst h
    exact absurd hBp (by simp [assocGet])
  have h1 : authenticate_user db email password now secret = .ok none := by
    unfold authenticate_user get_user_by_email
    rw [hA]
  have h2 : authenticate_user db2 email2 password2 now2 secret2 = .ok none := by
    unfold authenticate_user get_user_by_email
    rw [hB]
    simp [hne, hBp, asBcrypt, bcrypt_checkpw, hBw]
  exact ⟨h1, h2, h1.trans h2.symm⟩

/-- A stored account with a well-formed bcrypt hash of Right123. -/
def rightPwUser : PyDict :=
  [("_id", .str "1"), ("email", .str "user@example.com"),
   ("password", .hashVal (.wellFormed "Right123" 3)), ("username", .str "john_doe")]

/-- A store holding exactly rightPwUser. -/
def rightPwDb : String → Option PyDict :=
  fun e => if e = "user@example.com" then some rightPwUser else none

/-- Witness for C4: an unknown email and a wrong password at concrete
inputs give the identical ok-none result. -/
theorem authenticate_failures_indistinguishable_witness :
    authenticate_user (fun _ => none) "ghost@example.com" "AnyPass123" 0 "secret"
      = .ok none ∧
    authenticate_user rightPwDb "user@example.com" "Wrong123" 0 "secret"
      = .ok none ∧
    authenticate_user (fun _ => none) "ghost@example.com" "AnyPass123" 0 "secret"
      = authenticate_user rightPwDb "user@example.com" "Wrong123" 0 "secret" :=
  authenticate_failures_indistinguishable (fun _ => none) rightPwDb
    "ghost@example.com" "user@example.com" "AnyPass123" "Wrong123" 0 0
    "secret" "secret" rightPwUser "Right123" 3 rfl rfl rfl (by decide)

/-- The dict comprehension dropping the password key removes exactly that
key: lookups of password give none and every other lookup is unchanged. -/
lemma assocGet_drop_password (l : PyDict) :
    assocGet (l.filter (fun kv => kv.1 ≠ "password")) "password" = none ∧
    ∀ k, k ≠ "password" →
      assocGet (l.filter (fun kv => kv.1 ≠ "password")) k = assocGet l k := by
  induction l with
  | nil => exact ⟨rfl, fun _ _ => rfl⟩
  | cons kv rest ih =>
    obtain ⟨k1, v⟩ := kv
    by_cases h1 : k1 = "password"
    · subst h1
      refine ⟨by simpa using ih.1, ?_⟩
      intro k hk
      have : ¬ ("password" = k) := fun h => hk h.symm
      simpa [assocGet, this] using ih.2 k hk
    · refine ⟨by simpa [assocGet, h1] using ih.1, ?_⟩
      intro k hk
      by_cases h2 : k1 = k
      · subst h2
        simp [assocGet, h1]
      · simpa [assocGet, h1, h2] using ih.2 k hk

/-- C5: when authenticate_user succeeds, the returned user_data has no
password field and agrees with the looked-up record on every other key. -/
theorem authenticate_user_sanitizes (db : String → Option PyDict)
    (email password : String) (now : Int) (secret : String)
    (tok : TokenRepr) (ud user : PyDict)
    (hu : db (normalizeEmail email) = some user)
    (hres : authenticate_user db email password now secret = .ok (some (tok, ud))) :
    assocGet ud "password" = none ∧
    ∀ k, k ≠ "password" → assocGet ud k = assocGet user k := by
  have hud : ud = user.filter (fun kv => kv.1 ≠ "password") := by
    unfold authenticate_user get_user_by_email at hres
    rw [hu] at hres
    dsimp only at hres
    by_cases hne : user = []
    · rw [if_pos hne] at hres
      exact absurd hres (by simp)
    rw [if_neg hne] at hres
    cases hpw : assocGet user "password" with
    | none =>
      rw [hpw] at hres
      exact absurd hres (by simp)
    | some pv =>
      rw [hpw] at hres
      dsimp only at hres
      cases hcp : bcrypt_checkpw password (asBcrypt pv) with
      | error e =>
        rw [hcp] at hres
        exact absurd hres (by simp)
      | ok b =>
        rw [hcp] at hres
        dsimp only at hres
        cases b with
        | false => exact absurd hres (by simp)
        | true =>
          cases hid : assocGet user "_id" with
          | none =>
            rw [hid] at hres
            exact absurd hres (by simp)
          | some idv =>
            rw [hid] at hres
            simp at hres
            simpa using hres.2.symm
  subst hud
  exact assocGet_drop_password user

/-- Witness for C5 at a concrete successful authentication. -/
theorem authenticate_user_sanitizes_witness :
    assocGet (rightPwUser.filter (fun kv => kv.1 ≠ "password")) "password" = none ∧
    assocGet (rightPwUser.filter (fun kv => kv.1 ≠ "password")) "username"
      = assocGet rightPwUser "username" := by
  have h := authenticate_user_sanitizes rightPwDb "user@example.com" "Right123" 0
    "secret" (generate_token "1" "user@example.com" 3600 0 "secret")
    (rightPwUser.filter (fun kv => kv.1 ≠ "password")) rightPwUser rfl rfl
  exact ⟨h.1, h.2 "username" (by decide)⟩

/-- A token environment in which every token substring denotes the same
well-signed one-claim token. -/
def oneTokenEnv : String → TokenRepr :=
  fun _ => TokenRepr.signed [("user_id", .str "user123")] "secret"

/-- Counterexample for C6: headers that are not of the exact two-token
single-space form Bearer-space-token still yield a payload, because
str.split() collapses whitespace runs: a double-space separator and
surrounding whitespace are both accepted. -/
theorem verify_token_header_whitespace_cex :
    verify_token_header oneTokenEnv "Bearer  sometoken" 0 "secret"
      = some [("user_id", ClaimVal.str "user123")] ∧
    verify_token_header oneTokenEnv " bearer sometoken " 0 "secret"
      = some [("user_id", ClaimVal.str "user123")] := by
  exact ⟨rfl, rfl⟩

/-- C6 as amended: verify_token_header splits the header on runs of
whitespace; whenever the split has exactly two parts whose first lowercases
to bearer it delegates the second part to validate_token, so repeated or
surrounding whitespace is also accepted; a two-part split with any other
scheme, a split of any other length, and in particular a Token scheme, the
empty header and a bare token, all yield none. -/
theorem verify_token_header_spec (env : String → TokenRepr) (header : String)
    (now : Int) (secret : String) :
    (∀ scheme tok, pySplitWs header = [scheme, tok] → pyLower scheme = "bearer" →
      verify_token_header env header now secret
        = validate_token (env tok) now secret) ∧
    (∀ scheme tok, pySplitWs header = [scheme, tok] → pyLower scheme ≠ "bearer" →
      verify_token_header env header now secret = none) ∧
    ((pySplitWs header).length ≠ 2 →
      verify_token_header env header now secret = none) ∧
    verify_token_header env "Token sometoken" now secret = none ∧
    verify_token_header env "" now secret = none ∧
    verify_token_header env "sometokenalone" now secret = none := by
  refine ⟨?_, ?_, ?_, rfl, rfl, rfl⟩
  · intro scheme tok hsplit hlower
    have hne : header ≠ "" := by
      intro h
      subst h
      simp [pySplitWs, pySplitList] at hsplit
    unfold verify_token_header
    rw [if_neg hne, hsplit]
    dsimp only
    rw [if_neg (not_not_intro hlower)]
  · intro scheme tok hsplit hlower
    have hne : header ≠ "" := by
      intro h
      subst h
      simp [pySplitWs, pySplitList] at hsplit
    unfold verify_token_header
    rw [if_neg hne, hsplit]
    dsimp only
    rw [if_pos hlower]
  · intro hlen
    by_cases hne : header = ""
    · subst hne
      rfl
    unfold verify_token_header
    rw [if_neg hne]
    cases hs : pySplitWs header with
    | nil => rfl
    | cons a rest =>
      cases rest with
      | nil => rfl
      | cons b rest2 =>
        cases rest2 with
        | nil =>
          exfalso
          exact hlen (by rw [hs]; rfl)
        | cons c rest3 => rfl

/-- Witness for the amended C6: a well-formed bearer header delegates to
validate_token on the extracted token. -/
theorem verify_token_header_spec_witness :
    verify_token_header oneTokenEnv "Bearer sometoken" 0 "secret"
      = validate_token (oneTokenEnv "sometoken") 0 "secret" :=
  (verify_token_header_spec oneTokenEnv "Bearer sometoken" 0 "secret").1
    "Bearer" "sometoken" (by decide) (by decide)

/-- A store state in which one email is already registered. -/
def takenEmailDb : DbState := ⟨["taken@example.com"], []⟩

/-- Counterexample for C8: a uniqueness violation is not surfaced as a
distinct ConflictError kind. The ValueError that create_user raises on a
duplicate email is caught by the endpoint and returned through the same
error constructor with the same 400 status that every validation failure
uses; only the message text differs. -/
theorem register_conflict_not_distinct_cex :
    register_post takenEmailDb 0 "newid" 0
      (some "taken@example.com") (some "new_user") (some "ValidPass123")
      = .err "User with email taken@example.com already exists" 400 ∧
    register_post takenEmailDb 0 "newid" 0
      (some "taken@example.com") (some "new_user") (some "short")
      = .err "Password must be at least 8 characters" 400 := by
  exact ⟨rfl, rfl⟩

/-- C8 as amended: Register runs the validators in the order email,
username, password, returning the first failure with 400 before later
validators are consulted; when all pass it hashes the password and calls
create_user; a duplicate email or username makes create_user raise
ValueError, which the endpoint returns as the same generic error body with
status 400 that validation failures use, not as a distinct conflict kind;
with no duplicate the 201 success body carries the new id. -/
theorem register_post_spec (db : DbState) (salt : Nat) (newId : String) (t : Int)
    (email username password : Option String) :
    (∀ msg, validate_email_field email = (false, msg) →
      register_post db salt newId t email username password = .err msg 400) ∧
    (∀ msg, (validate_email_field email).1 = true →
      validate_username_field username = (false, msg) →
      register_post db salt newId t email username password = .err msg 400) ∧
    (∀ msg, (validate_email_field email).1 = true →
      (validate_username_field username).1 = true →
      validate_password_field password = (false, msg) →
      register_post db salt newId t email username password = .err msg 400) ∧
    ((validate_email_field email).1 = true →
      (validate_username_field username).1 = true →
      (validate_password_field password).1 = true →
      emailExists db (email.getD "") = true →
      register_post db salt newId t email username password
        = .err ("User with email " ++ email.getD "" ++ " already exists") 400) ∧
    ((validate_email_field email).1 = true →
      (validate_username_field username).1 = true →
      (validate_password_field password).1 = true →
      emailExists db (email.getD "") = false →
      usernameExists db (username.getD "") = true →
      register_post db salt newId t email username password
        = .err ("Username " ++ username.getD "" ++ " already taken") 400) ∧
    ((validate_email_field email).1 = true →
      (validate_username_field username).1 = true →
      (validate_password_field password).1 = true →
      emailExists db (email.getD "") = false →
      usernameExists db (username.getD "") = false →
      register_post db salt newId t email username password
        = .created "User created successfully" newId 201) := by
  refine ⟨?_, ?_, ?_, ?_, ?_, ?_⟩
  · intro msg hE
    unfold register_post
    rw [hE]
  · intro msg hE1 hU
    rcases hE : validate_email_field email with ⟨b, m⟩
    rw [hE] at hE1
    cases b with
    | false => simp at hE1
    | true =>
      unfold register_post
      rw [hE, hU]
  · intro msg hE1 hU1 hP
    rcases hE : validate_email_field email with ⟨b, m⟩
    rw [hE] at hE1
    cases b with
    | false => simp at hE1
    | true =>
      rcases hU : validate_username_field username with ⟨b2, m2⟩
      rw [hU] at hU1
      cases b2 with
      | false => simp at hU1
      | true =>
        unfold register_post
        rw [hE, hU, hP]
  · intro hE1 hU1 hP1 hconf
    rcases hE : validate_email_field email with ⟨b, m⟩
    rw [hE] at hE1
    rcases hU : validate_username_field username with ⟨b2, m2⟩
    rw [hU] at hU1
    rcases hP : validate_password_field password with ⟨b3, m3⟩
    rw [hP] at hP1
    cases b with
    | false => simp at hE1
    | true =>
      cases b2 with
      | false => simp at hU1
      | true =>
        cases b3 with
        | false => simp at hP1
        | true =>
          unfold register_post create_user
          rw [hE, hU, hP]
          dsimp only
          rw [if_pos hconf]
  · intro hE1 hU1 hP1 hconfE hconfU
    rcases hE : validate_email_field email with ⟨b, m⟩
    rw [hE] at hE1
    rcases hU : validate_username_field username with ⟨b2, m2⟩
    rw [hU] at hU1
    rcases hP : validate_password_field password with ⟨b3, m3⟩
    rw [hP] at hP1
    cases b with
    | false => simp at hE1
    | true =>
      cases b2 with
      | false => simp at hU1
      | true =>
        cases b3 with
        | false => simp at hP1
        | true =>
          unfold register_post create_user
          rw [hE, hU, hP]
          dsimp only
          rw [if_neg (by simp [hconfE]), if_pos hconfU]
  · intro hE1 hU1 hP1 hconfE hconfU
    rcases hE : validate_email_field email with ⟨b, m⟩
    rw [hE] at hE1
    rcases hU : validate_username_field username with ⟨b2, m2⟩
    rw [hU] at hU1
    rcases hP : validate_password_field password with ⟨b3, m3⟩
    rw [hP] at hP1
    cases b with
    | false => simp at hE1
    | true =>
      cases b2 with
      | false => simp at hU1
      | true =>
        cases b3 with
        | false => simp at hP1
        | true =>
          unfold register_post create_user
          rw [hE, hU, hP]
          dsimp only
          rw [if_neg (by simp [hconfE]), if_neg (by simp [hconfU])]
          rfl

/-- Witness for the amended C8: a fully valid registration against an
empty store creates the account with 201. -/
theorem register_post_spec_witness :
    register_post ⟨[], []⟩ 5 "newid" 0
      (some "user@example.com") (some "john_doe") (some "ValidPass123")
      = .created "User created successfully" "newid" 201 :=
  (register_post_spec ⟨[], []⟩ 5 "newid" 0
    (some "user@example.com") (some "john_doe") (some "ValidPass123")).2.2.2.2.2
    (by decide) (by decide) (by decide) (by decide) (by decide)

end Wamp
